import Mathlib

/-!
Verification of the constraint-based tutor grading scripts.

The development embeds, as Lean functions, the grading logic of
`src/problems/play_music.py` and the shared helpers of `src/shared_utils.py`
(`grade_question_parameterized`, `set_weighted_score_data`, `binary_search`),
and proves the stated behavioural properties about them.

The `scaffolded_writing` package (`ScaffoldedWritingCFG`, `StudentSubmission`)
is not part of the sources; its derivation record and path-existence query are
modelled from the specification (spec sections 3 and 4.1).
-/

/-- Modelled from the spec: the derivation record built by `StudentSubmission`
(from the `scaffolded_writing` package, absent from the sources) is "a mapping
from non-terminal name to the specific terminal-literal alternative it matched
(or unmatched / not applicable if that non-terminal's branch was not taken)".
We model it as a function from non-terminal names to the optional matched
alternative. -/
def DerivationRecord : Type := String → Option String

/-- Modelled from the spec: the query surface
`record.took_alternative(non_terminal, alternative_literal) -> bool`, exposed in
the code as `StudentSubmission.does_path_exist`, is "true iff that
non-terminal's matched alternative equals the given literal". -/
def does_path_exist (submission : DerivationRecord) (nt alt : String) : Bool :=
  submission nt == some alt

/-- Embedding of `grade_statement` from `src/problems/play_music.py`
(lines 32-62): the ordered chain of rule checks over path-existence queries. -/
def grade_statement (submission : DerivationRecord) : Bool × Option String :=
  if does_path_exist submission "ARTIST" "Vulfpeck" &&
      does_path_exist submission "PLAY_LOCATION" "in church" then
    (false, some "Vulfpeck is great, but not in the context of church. consider playing somewhere else.")
  else if does_path_exist submission "ARTIST" "Taylor Swift" then
    (false, some "It's best to sing Taylor Swift songs rather than play them. Try again.")
  else if does_path_exist submission "ARTIST" "Vulfpeck" &&
      does_path_exist submission "INSTRUMENT" "with a violin" then
    (false, some "Yeah that doesn't really work. You'd better use a different instrument if you want to play Vulfpeck")
  else if does_path_exist submission "PLAY_LOCATION" "at home" then
    (false, some "No need to play at home anymore. You've practiced. Go out and play!")
  else if does_path_exist submission "ARTIST" "Janice Kapp Perry" &&
      does_path_exist submission "PLAY_LOCATION" "at the quad" then
    (false, some "Her music is a bit soft. Not many people will be able to hear it")
  else if does_path_exist submission "ARTIST" "Vulfpeck" &&
      does_path_exist submission "PLAY_LOCATION" "at the quad" &&
      does_path_exist submission "INSTRUMENT" "with a guitar" then
    (true, some "Yep. That's the ultimate combo.")
  else
    (true, none)

/-- A grading rule as the spec describes it: a predicate over the derivation
record together with the verdict and feedback produced when the predicate
holds. -/
structure Rule where
  cond : DerivationRecord → Bool
  verdict : Bool
  feedback : Option String

/-- The generic ordered rule evaluator: return the verdict and feedback of the
first rule whose condition holds, and `(true, none)` when none does. -/
def applyFirst : List Rule → DerivationRecord → Bool × Option String
  | [], _ => (true, none)
  | rule :: rest, submission =>
    if rule.cond submission then (rule.verdict, rule.feedback)
    else applyFirst rest submission

/-- The six rules of `grade_statement`, in their written order. -/
def playMusicRules : List Rule :=
  [ ⟨fun s => does_path_exist s "ARTIST" "Vulfpeck" &&
        does_path_exist s "PLAY_LOCATION" "in church",
      false, some "Vulfpeck is great, but not in the context of church. consider playing somewhere else."⟩,
    ⟨fun s => does_path_exist s "ARTIST" "Taylor Swift",
      false, some "It's best to sing Taylor Swift songs rather than play them. Try again."⟩,
    ⟨fun s => does_path_exist s "ARTIST" "Vulfpeck" &&
        does_path_exist s "INSTRUMENT" "with a violin",
      false, some "Yeah that doesn't really work. You'd better use a different instrument if you want to play Vulfpeck"⟩,
    ⟨fun s => does_path_exist s "PLAY_LOCATION" "at home",
      false, some "No need to play at home anymore. You've practiced. Go out and play!"⟩,
    ⟨fun s => does_path_exist s "ARTIST" "Janice Kapp Perry" &&
        does_path_exist s "PLAY_LOCATION" "at the quad",
      false, some "Her music is a bit soft. Not many people will be able to hear it"⟩,
    ⟨fun s => does_path_exist s "ARTIST" "Vulfpeck" &&
        does_path_exist s "PLAY_LOCATION" "at the quad" &&
        does_path_exist s "INSTRUMENT" "with a guitar",
      true, some "Yep. That's the ultimate combo."⟩ ]

lemma applyFirst_append_of_matched (pre post post' : List Rule)
    (s : DerivationRecord) (h : ∃ rule ∈ pre, rule.cond s = true) :
    applyFirst (pre ++ post) s = applyFirst (pre ++ post') s := by
  induction pre with
  | nil => obtain ⟨rule, hmem, _⟩ := h; simp at hmem
  | cons rule rest ih =>
    obtain ⟨r, hmem, hcond⟩ := h
    by_cases hc : rule.cond s = true
    · simp [applyFirst, hc]
    · rcases List.mem_cons.mp hmem with heq | hmem'
      · subst heq; exact absurd hcond hc
      · simp only [List.cons_append, applyFirst, if_neg hc]
        exact ih ⟨r, hmem', hcond⟩

/-- A concrete derivation record: artist Vulfpeck, location in church,
instrument with a trombone. -/
def recChurch : DerivationRecord := fun nt =>
  if nt = "ARTIST" then some "Vulfpeck"
  else if nt = "PLAY_LOCATION" then some "in church"
  else if nt = "INSTRUMENT" then some "with a trombone"
  else none

/-- A concrete derivation record: artist Taylor Swift, location at the quad,
instrument with a guitar. -/
def recTaylor : DerivationRecord := fun nt =>
  if nt = "ARTIST" then some "Taylor Swift"
  else if nt = "PLAY_LOCATION" then some "at the quad"
  else if nt = "INSTRUMENT" then some "with a guitar"
  else none

/-- A concrete derivation record: artist Vulfpeck, location at the quad,
instrument with a guitar (the ultimate combo). -/
def recCombo : DerivationRecord := fun nt =>
  if nt = "ARTIST" then some "Vulfpeck"
  else if nt = "PLAY_LOCATION" then some "at the quad"
  else if nt = "INSTRUMENT" then some "with a guitar"
  else none

/-- A concrete derivation record for the epsilon branch: no non-terminal
below PLAY matched anything. -/
def recEpsilon : DerivationRecord := fun _ => none

/-- C1: grade_statement evaluates its rule predicates strictly in their
written order and returns the verdict and feedback of the first rule whose
condition holds; once a rule has matched, the rules after it (here: after any
prefix containing a matching rule) do not affect the result. -/
theorem grade_statement_first_match (s : DerivationRecord) :
    grade_statement s = applyFirst playMusicRules s ∧
    ∀ (pre post post' : List Rule) (s' : DerivationRecord),
      (∃ rule ∈ pre, rule.cond s' = true) →
      applyFirst (pre ++ post) s' = applyFirst (pre ++ post') s' := by
  constructor
  · simp only [grade_statement, playMusicRules, applyFirst]
  · exact fun pre post post' s' h => applyFirst_append_of_matched pre post post' s' h

/-- Witness for C1 at a concrete record and concrete rule lists. -/
theorem grade_statement_first_match_witness :
    grade_statement recChurch = applyFirst playMusicRules recChurch ∧
    applyFirst (playMusicRules ++ []) recChurch
      = applyFirst (playMusicRules ++ [⟨fun _ => true, true, none⟩]) recChurch := by
  refine ⟨(grade_statement_first_match recChurch).1, ?_⟩
  exact (grade_statement_first_match recChurch).2 playMusicRules _ _ recChurch
    ⟨⟨fun s => does_path_exist s "ARTIST" "Vulfpeck" &&
        does_path_exist s "PLAY_LOCATION" "in church",
      false, some "Vulfpeck is great, but not in the context of church. consider playing somewhere else."⟩,
     by simp [playMusicRules], by decide⟩

/-- C2: a derivation record answering true to the path queries
(ARTIST, Vulfpeck) and (PLAY_LOCATION, in church) is graded false with the
church feedback, whatever else it matched. -/
theorem grade_statement_vulfpeck_church (s : DerivationRecord)
    (hartist : does_path_exist s "ARTIST" "Vulfpeck" = true)
    (hloc : does_path_exist s "PLAY_LOCATION" "in church" = true) :
    grade_statement s =
      (false, some "Vulfpeck is great, but not in the context of church. consider playing somewhere else.") := by
  simp [grade_statement, hartist, hloc]

/-- Witness for C2 at the concrete church record. -/
theorem grade_statement_vulfpeck_church_witness :
    grade_statement recChurch =
      (false, some "Vulfpeck is great, but not in the context of church. consider playing somewhere else.") :=
  grade_statement_vulfpeck_church recChurch (by decide) (by decide)

/-- C3: a derivation record whose ARTIST non-terminal matched the alternative
Taylor Swift is graded false with the Taylor Swift feedback, whatever
PLAY_LOCATION and INSTRUMENT matched: the earlier church rule requires ARTIST
to have matched Vulfpeck, which cannot hold at the same time. -/
theorem grade_statement_taylor_swift (s : DerivationRecord)
    (hartist : s "ARTIST" = some "Taylor Swift") :
    grade_statement s =
      (false, some "It's best to sing Taylor Swift songs rather than play them. Try again.") := by
  simp [grade_statement, does_path_exist, hartist]

/-- Witness for C3 at the concrete Taylor Swift record. -/
theorem grade_statement_taylor_swift_witness :
    grade_statement recTaylor =
      (false, some "It's best to sing Taylor Swift songs rather than play them. Try again.") :=
  grade_statement_taylor_swift recTaylor (by decide)

/-- C4: a derivation record matching ARTIST to Vulfpeck, PLAY_LOCATION to
at the quad and INSTRUMENT to with a guitar is graded true with the ultimate
combo feedback. -/
theorem grade_statement_ultimate_combo (s : DerivationRecord)
    (hartist : s "ARTIST" = some "Vulfpeck")
    (hloc : s "PLAY_LOCATION" = some "at the quad")
    (hinstr : s "INSTRUMENT" = some "with a guitar") :
    grade_statement s = (true, some "Yep. That's the ultimate combo.") := by
  simp [grade_statement, does_path_exist, hartist, hloc, hinstr]

/-- Witness for C4 at the concrete combo record. -/
theorem grade_statement_ultimate_combo_witness :
    grade_statement recCombo = (true, some "Yep. That's the ultimate combo.") :=
  grade_statement_ultimate_combo recCombo (by decide) (by decide) (by decide)

/-- C5: a derivation record for the epsilon branch, on which every
path-existence query over ARTIST, PLAY_LOCATION and INSTRUMENT answers false,
is graded `(true, none)`. -/
theorem grade_statement_epsilon (s : DerivationRecord)
    (hartist : ∀ alt, does_path_exist s "ARTIST" alt = false)
    (hloc : ∀ alt, does_path_exist s "PLAY_LOCATION" alt = false)
    (hinstr : ∀ alt, does_path_exist s "INSTRUMENT" alt = false) :
    grade_statement s = (true, none) := by
  simp [grade_statement, hartist, hloc, hinstr]

/-- Witness for C5 at the concrete all-unmatched record. -/
theorem grade_statement_epsilon_witness :
    grade_statement recEpsilon = (true, none) :=
  grade_statement_epsilon recEpsilon (fun _ => rfl) (fun _ => rfl) (fun _ => rfl)

/-- C8: grade_statement is deterministic and stateless: its result is a pure
function of the derivation record's answers; two records answering alike on
the non-terminals it queries are graded identically. -/
theorem grade_statement_deterministic (s₁ s₂ : DerivationRecord)
    (hartist : s₁ "ARTIST" = s₂ "ARTIST")
    (hloc : s₁ "PLAY_LOCATION" = s₂ "PLAY_LOCATION")
    (hinstr : s₁ "INSTRUMENT" = s₂ "INSTRUMENT") :
    grade_statement s₁ = grade_statement s₂ := by
  simp only [grade_statement, does_path_exist, hartist, hloc, hinstr]

/-- Witness for C8: two syntactically different records with equal answers
are graded identically. -/
theorem grade_statement_deterministic_witness :
    grade_statement recCombo = grade_statement
      (fun nt => if nt = "INSTRUMENT" then some "with a guitar"
        else if nt = "PLAY_LOCATION" then some "at the quad"
        else if nt = "ARTIST" then some "Vulfpeck" else none) :=
  grade_statement_deterministic recCombo _ (by decide) (by decide) (by decide)

/-! ### Shared utilities (`src/shared_utils.py`)

The grading host's `data` dictionary is modelled as a structure of
association lists (Python dictionaries preserve insertion order, and the
helpers only ever read, insert or overwrite single keys). Scores are
modelled as rationals.
-/

/-- Python dictionary read `d[k]` / `d.get(k)`: the value at the first
matching key, if any. -/
def getKey : List (String × α) → String → Option α
  | [], _ => none
  | p :: rest, k => if p.1 == k then some p.2 else getKey rest k

/-- Python dictionary write `d[k] = v`: overwrite in place, or append a new
binding. -/
def setKey : List (String × α) → String → α → List (String × α)
  | [], k, v => [(k, v)]
  | p :: rest, k, v => if p.1 == k then (k, v) :: rest else p :: setKey rest k v

/-- Python in-place field update `d[k][field] = v` of a present key. -/
def updateKey (l : List (String × α)) (k : String) (f : α → α) :
    List (String × α) :=
  l.map (fun p => if p.1 == k then (p.1, f p.2) else p)

lemma getKey_setKey_self (l : List (String × α)) (k : String) (v : α) :
    getKey (setKey l k v) k = some v := by
  induction l with
  | nil => simp [setKey, getKey]
  | cons p rest ih =>
    by_cases h : p.1 = k
    · simp [setKey, getKey, h]
    · simp [setKey, getKey, h, ih]

lemma getKey_updateKey_self (l : List (String × α)) (k : String) (f : α → α) :
    getKey (updateKey l k f) k = (getKey l k).map f := by
  induction l with
  | nil => simp [updateKey, getKey]
  | cons p rest ih =>
    by_cases h : p.1 = k
    · simp [updateKey, getKey, h]
    · simpa [updateKey, getKey, h] using ih

/-- Model of the Python standard library's `html.escape` (with quoting), used
by `grade_question_parameterized` on format-error messages: every occurrence
of an HTML-special character is replaced by its entity. -/
def html_escape (s : String) : String :=
  String.join (s.data.map (fun c =>
    if c = '&' then "&amp;"
    else if c = '<' then "&lt;"
    else if c = '>' then "&gt;"
    else if c = Char.ofNat 34 then "&quot;"
    else if c = Char.ofNat 39 then "&#x27;"
    else String.singleton c))

/-- A submitted answer (`Any` in the Python signature): either a raw string
or a token list, the two shapes the graded problems use. -/
inductive PyVal where
  | str (s : String)
  | tokens (l : List String)
deriving DecidableEq

/-- The first component of a grade function's result,
`Union[bool, float]` in the Python signature. -/
inductive GradeResult where
  | asBool (b : Bool)
  | asNum (q : ℚ)
deriving DecidableEq

/-- An exception escaping `grade_question_parameterized`: the `assert` on the
score range, or the `ValueError` raised for unescaped student input in
feedback. (A `ValueError` raised by the grade function itself is caught, not
escaped; it is modelled as the `Except.error` case of the grade function.) -/
inductive GradeErr where
  | assertionError
  | valueError (msg : String)
deriving DecidableEq

/-- One entry of `data['partial_scores']`: a score, a weight, and the
optional feedback added after grading. -/
structure PartialScore where
  score : ℚ
  weight : Int
  feedback : Option String
deriving DecidableEq

/-- The slice of the grading host's `data` dictionary that the shared
helpers read and write. -/
structure Data where
  submitted_answers : List (String × PyVal)
  partial_scores : List (String × PartialScore)
  format_errors : List (String × String)
  feedback : List (String × String)
  score : Option ℚ
deriving DecidableEq

/-- Python substring test `needle in hay`. -/
def strInfix (needle hay : String) : Bool :=
  decide (needle.data <:+: hay.data)

/-- Python character-membership test `c in s`. -/
def strContains (s : String) (c : Char) : Bool :=
  s.data.contains c

/-- Embedding of `grade_question_parameterized` from `src/shared_utils.py`
(lines 170-237). The returned pair is the mutated `data` dictionary together
with the exception the call raises, if any (`none` = the call returns
normally). A grade function raising `ValueError` is modelled by
`Except.error` carrying the message; in Python `bool` is a subclass of `int`,
so a boolean result also satisfies `isinstance(result, (int, float))` and
flows through the numeric branch as the value 1 or 0, making the declared
`isinstance(result, bool)` branch unreachable — either way the stored score
for a boolean is 1.0 or 0.0. -/
def grade_question_parameterized (data : Data) (question_name : String)
    (grade_function : PyVal → Except String (GradeResult × Option String))
    (weight : Int) (feedback_field_name : Option String) :
    Data × Option GradeErr :=
  let data1 : Data := { data with
    partial_scores := setKey data.partial_scores question_name ⟨0, weight, none⟩ }
  match getKey data1.submitted_answers question_name with
  | none =>
    let fe := setKey data1.format_errors question_name "No answer was submitted"
    ({ data1 with format_errors := fe }, none)
  | some submitted_answer =>
    match grade_function submitted_answer with
    | Except.error err =>
      let fe := setKey data1.format_errors question_name (html_escape err)
      ({ data1 with format_errors := fe }, none)
    | Except.ok (result, feedback_content) =>
      let numeric : ℚ :=
        match result with
        | GradeResult.asBool b => if b then 1 else 0
        | GradeResult.asNum q => q
      if 0 ≤ numeric ∧ numeric ≤ 1 then
        let data2 : Data := { data1 with
          partial_scores := updateKey data1.partial_scores question_name
            (fun ps => { ps with score := numeric }) }
        match feedback_content with
        | none => (data2, none)
        | some fc =>
          if fc = "" then (data2, none)
          else
            let contains_bad_chars :=
              match submitted_answer with
              | PyVal.str sa => strContains sa '<' && strContains sa '>'
              | PyVal.tokens _ => false
            let echoed :=
              match submitted_answer with
              | PyVal.str sa => strInfix sa fc
              | PyVal.tokens _ => false
            if contains_bad_chars && echoed then
              (data2, some (GradeErr.valueError
                ("Unescaped student input should not be present in the feedback for "
                  ++ question_name ++ ".")))
            else
              let data3 : Data := { data2 with
                partial_scores := updateKey data2.partial_scores question_name
                  (fun ps => { ps with feedback := some fc }) }
              let ffn :=
                match feedback_field_name with
                | none => question_name
                | some f => if f = "" then question_name else f
              ({ data3 with feedback := setKey data3.feedback ffn fc }, none)
      else
        (data1, some GradeErr.assertionError)

/-- Embedding of `set_weighted_score_data` from `src/shared_utils.py`
(lines 110-115): the main score becomes the weighted average of the partial
scores. `none` models the `ZeroDivisionError` Python raises when the integer
weights sum to zero (in particular when there are no partial scores). -/
def set_weighted_score_data (data : Data) : Option Data :=
  let weighted_sum : ℚ :=
    (data.partial_scores.map (fun p => p.2.score * (p.2.weight : ℚ))).sum
  let weight_total : ℚ :=
    (data.partial_scores.map (fun p => (p.2.weight : ℚ))).sum
  if weight_total = 0 then none
  else some { data with score := some (weighted_sum / weight_total) }

/-- C6: when the grade function raises `ValueError` (the FormatError case),
`grade_question_parameterized` records the escaped message under the question
in `format_errors`, leaves the question's partial score at 0, sets no
feedback, and returns normally instead of propagating the exception. -/
theorem gqp_format_error (data : Data) (question_name : String)
    (grade_function : PyVal → Except String (GradeResult × Option String))
    (weight : Int) (ffn : Option String) (ans : PyVal) (msg : String)
    (hans : getKey data.submitted_answers question_name = some ans)
    (herr : grade_function ans = Except.error msg) :
    ∃ data',
      grade_question_parameterized data question_name grade_function weight ffn
        = (data', none) ∧
      getKey data'.format_errors question_name = some (html_escape msg) ∧
      getKey data'.partial_scores question_name = some ⟨0, weight, none⟩ ∧
      data'.feedback = data.feedback := by
  simp only [grade_question_parameterized, hans, herr]
  exact ⟨_, rfl, getKey_setKey_self _ _ _, getKey_setKey_self _ _ _, rfl⟩

/-- Witness data for the `grade_question_parameterized` theorems: one
submitted answer for question q1, empty score and error maps. -/
def dataEx : Data :=
  { submitted_answers := [("q1", PyVal.str "Play Vulfpeck in church")],
    partial_scores := [],
    format_errors := [],
    feedback := [],
    score := none }

/-- A grade function that always raises `ValueError`, as `grade_statement`
does through `StudentSubmission` when the tokens cannot be derived. -/
def gfRaise (msg : String) : PyVal → Except String (GradeResult × Option String) :=
  fun _ => Except.error msg

/-- Witness for C6 at concrete data and a concrete raising grade function. -/
theorem gqp_format_error_witness :
    ∃ data',
      grade_question_parameterized dataEx "q1" (gfRaise "cannot derive <tokens>") 1 none
        = (data', none) ∧
      getKey data'.format_errors "q1" = some (html_escape "cannot derive <tokens>") ∧
      getKey data'.partial_scores "q1" = some ⟨0, 1, none⟩ ∧
      data'.feedback = dataEx.feedback :=
  gqp_format_error dataEx "q1" (gfRaise "cannot derive <tokens>") 1 none
    (PyVal.str "Play Vulfpeck in church") "cannot derive <tokens>" rfl rfl

/-- C7: every score `grade_question_parameterized` records for the question
lies in [0, 1] (a boolean maps to 1.0 or 0.0, an in-range numeric is stored
as is, and on every other path the initial 0 remains), and a numeric result
outside [0, 1] makes the call raise `AssertionError`, so the out-of-range
value is never stored. -/
theorem gqp_score_range (data : Data) (question_name : String)
    (grade_function : PyVal → Except String (GradeResult × Option String))
    (weight : Int) (ffn : Option String) :
    (∀ ps, getKey
        (grade_question_parameterized data question_name grade_function weight ffn).1.partial_scores
        question_name = some ps →
      0 ≤ ps.score ∧ ps.score ≤ 1) ∧
    (∀ ans q fb, getKey data.submitted_answers question_name = some ans →
      grade_function ans = Except.ok (GradeResult.asNum q, fb) →
      ¬ (0 ≤ q ∧ q ≤ 1) →
      (grade_question_parameterized data question_name grade_function weight ffn).2
        = some GradeErr.assertionError) := by
  constructor
  · intro ps hps
    simp only [grade_question_parameterized] at hps
    split at hps
    · simp only [getKey_setKey_self] at hps
      cases hps; constructor <;> norm_num
    · split at hps
      · simp only [getKey_setKey_self] at hps
        cases hps; constructor <;> norm_num
      · split at hps
        · rename_i hrange
          split at hps
          · simp only [getKey_updateKey_self, getKey_setKey_self, Option.map_some] at hps
            cases hps; exact hrange
          · split at hps
            · simp only [getKey_updateKey_self, getKey_setKey_self, Option.map_some] at hps
              cases hps; exact hrange
            · split at hps
              · simp only [getKey_updateKey_self, getKey_setKey_self, Option.map_some] at hps
                cases hps; exact hrange
              · simp only [getKey_updateKey_self, getKey_setKey_self, Option.map_some] at hps
                cases hps; exact hrange
        · simp only [getKey_setKey_self] at hps
          cases hps; constructor <;> norm_num
  · intro ans q fb hans hok hout
    simp only [grade_question_parameterized, hans, hok]
    rw [if_neg hout]

/-- C9: with a non-empty partial-scores mapping of non-zero total weight,
`set_weighted_score_data` sets the main score to exactly the weighted average
of the partial scores, leaving the partial scores unchanged. -/
theorem set_weighted_score_data_weighted_average (data : Data)
    (hne : data.partial_scores ≠ [])
    (hw : (data.partial_scores.map (fun p => (p.2.weight : ℚ))).sum ≠ 0) :
    ∃ data', set_weighted_score_data data = some data' ∧
      data'.score = some
        ((data.partial_scores.map (fun p => p.2.score * (p.2.weight : ℚ))).sum /
          (data.partial_scores.map (fun p => (p.2.weight : ℚ))).sum) ∧
      data'.partial_scores = data.partial_scores := by
  simp only [set_weighted_score_data, if_neg hw]
  exact ⟨_, rfl, rfl, rfl⟩

/-- Witness data for C9: two graded subquestions with scores 1 and 1/2 and
weights 1 and 2, whose weighted average is 2/3. -/
def dataW : Data :=
  { submitted_answers := [],
    partial_scores := [("q1", ⟨1, 1, none⟩), ("q2", ⟨1/2, 2, none⟩)],
    format_errors := [],
    feedback := [],
    score := none }

/-- Witness for C9 at the concrete two-question data record. -/
theorem set_weighted_score_data_weighted_average_witness :
    ∃ data', set_weighted_score_data dataW = some data' ∧
      data'.score = some
        ((dataW.partial_scores.map (fun p => p.2.score * (p.2.weight : ℚ))).sum /
          (dataW.partial_scores.map (fun p => (p.2.weight : ℚ))).sum) ∧
      data'.partial_scores = dataW.partial_scores :=
  set_weighted_score_data_weighted_average dataW (by simp [dataW]) (by norm_num [dataW])

/-- The while loop of `binary_search`, with an explicit fuel argument. The
fuel passed by `binary_search` is the initial interval width `hi - lo`; every
iteration strictly shrinks the width, so when the fuel reaches zero the loop
condition `lo < hi` has already failed and returning `lo` is exactly what the
Python loop does. -/
def bsearchLoop (f : Int → Bool) : Nat → Int → Int → Int
  | 0, lo, _ => lo
  | fuel + 1, lo, hi =>
    if lo < hi then
      if f (lo + (hi - lo) / 2) then bsearchLoop f fuel lo (lo + (hi - lo) / 2)
      else bsearchLoop f fuel (lo + (hi - lo) / 2 + 1) hi
    else lo

/-- Embedding of `binary_search` from `src/shared_utils.py` (lines 7-26).
The initial `assert lo <= hi` is modelled by the `Except.error` case; after
the loop, the Python code returns `None` when `condition_fn` is false at the
final position and that position otherwise. -/
def binary_search (lo hi : Int) (condition_fn : Int → Bool) :
    Except String (Option Int) :=
  if lo ≤ hi then
    let r := bsearchLoop condition_fn (hi - lo).toNat lo hi
    if condition_fn r then Except.ok (some r) else Except.ok none
  else Except.error "assert lo <= hi failed"

lemma bsearchLoop_spec (f : Int → Bool)
    (hmono : ∀ x y : Int, x ≤ y → f x = true → f y = true) :
    ∀ (fuel : Nat) (lo hi : Int), lo ≤ hi → (hi - lo).toNat ≤ fuel →
      lo ≤ bsearchLoop f fuel lo hi ∧ bsearchLoop f fuel lo hi ≤ hi ∧
      (∀ y, lo ≤ y → y < bsearchLoop f fuel lo hi → f y = false) ∧
      (f hi = true → f (bsearchLoop f fuel lo hi) = true) := by
  intro fuel
  induction fuel with
  | zero =>
    intro lo hi hle hfuel
    have heq : hi = lo := by omega
    subst heq
    simp only [bsearchLoop]
    exact ⟨le_refl _, le_refl _, fun y h1 h2 => absurd h2 (by omega), fun h => h⟩
  | succ n ih =>
    intro lo hi hle hfuel
    by_cases hlt : lo < hi
    · have h2 : 0 ≤ (hi - lo) / 2 := by omega
      have h3 : (hi - lo) / 2 < hi - lo := by omega
      simp only [bsearchLoop, if_pos hlt]
      by_cases hf : f (lo + (hi - lo) / 2) = true
      · rw [if_pos hf]
        obtain ⟨ih1, ih2, ih3, ih4⟩ :=
          ih lo (lo + (hi - lo) / 2) (by omega) (by omega)
        exact ⟨ih1, le_trans ih2 (by omega), ih3, fun _ => ih4 hf⟩
      · rw [if_neg hf]
        obtain ⟨ih1, ih2, ih3, ih4⟩ :=
          ih (lo + (hi - lo) / 2 + 1) hi (by omega) (by omega)
        refine ⟨by omega, ih2, ?_, ih4⟩
        intro y hy1 hy2
        by_cases hy3 : lo + (hi - lo) / 2 + 1 ≤ y
        · exact ih3 y hy3 hy2
        · cases hfy : f y with
          | false => rfl
          | true =>
            exact absurd (hmono y (lo + (hi - lo) / 2) (by omega) hfy) hf
    · simp only [bsearchLoop, if_neg hlt]
      refine ⟨le_refl _, by omega, fun y h1 h2 => absurd h2 (by omega), fun h => ?_⟩
      have heq : hi = lo := by omega
      exact heq ▸ h

/-- C10: for lo ≤ hi and a monotone condition (false on a prefix of the
integers, then true), `binary_search` returns the smallest x in the closed
interval [lo, hi] with the condition true, and returns None exactly when the
condition is false at hi; the upper bound hi itself is a possible return
value (the search range is the closed interval, not the half-open one the
docstring states). -/
theorem binary_search_first_true (lo hi : Int) (condition_fn : Int → Bool)
    (hle : lo ≤ hi)
    (hmono : ∀ x y : Int, x ≤ y → condition_fn x = true → condition_fn y = true) :
    (condition_fn hi = false → binary_search lo hi condition_fn = Except.ok none) ∧
    (condition_fn hi = true →
      ∃ x, binary_search lo hi condition_fn = Except.ok (some x) ∧
        lo ≤ x ∧ x ≤ hi ∧ condition_fn x = true ∧
        ∀ y, lo ≤ y → y < x → condition_fn y = false) := by
  obtain ⟨h1, h2, h3, h4⟩ :=
    bsearchLoop_spec condition_fn hmono (hi - lo).toNat lo hi hle (le_refl _)
  constructor
  · intro hhi
    have hr : condition_fn (bsearchLoop condition_fn (hi - lo).toNat lo hi) = false := by
      cases hfr : condition_fn (bsearchLoop condition_fn (hi - lo).toNat lo hi) with
      | false => rfl
      | true => exact absurd (hmono _ hi h2 hfr) (by simp [hhi])
    simp [binary_search, hle, hr]
  · intro hhi
    have hfr := h4 hhi
    refine ⟨_, ?_, h1, h2, hfr, h3⟩
    simp [binary_search, hle, hfr]

/-- The condition used in the C10 witness: true from 2 on. -/
def condGe2 : Int → Bool := fun x => decide (2 ≤ x)

/-- Witness for C10: searching [0, 2] for a condition that first holds at the
upper bound 2 finds 2, so the bound hi is reachable. -/
theorem binary_search_first_true_witness :
    (∃ x, binary_search 0 2 condGe2 = Except.ok (some x) ∧
      (0 : Int) ≤ x ∧ x ≤ 2 ∧ condGe2 x = true ∧
      ∀ y, (0 : Int) ≤ y → y < x → condGe2 y = false) ∧
    binary_search 0 2 condGe2 = Except.ok (some 2) := by
  constructor
  · exact (binary_search_first_true 0 2 condGe2 (by omega)
      (fun x y hxy hx => by
        simp only [condGe2, decide_eq_true_eq] at hx ⊢
        omega)).2 (by decide)
  · rfl

/-- A grade function returning the out-of-range numeric score 2, violating
the grading contract. -/
def gfBig : PyVal → Except String (GradeResult × Option String) :=
  fun _ => Except.ok (GradeResult.asNum 2, none)

/-- Witness for C7: a grade function returning the score 2 trips the
assertion while the stored score for the question remains the in-range 0. -/
theorem gqp_score_range_witness :
    (0 ≤ (⟨0, 1, none⟩ : PartialScore).score ∧ (⟨0, 1, none⟩ : PartialScore).score ≤ 1) ∧
    (grade_question_parameterized dataEx "q1" gfBig 1 none).2 = some GradeErr.assertionError :=
  ⟨(gqp_score_range dataEx "q1" gfBig 1 none).1 ⟨0, 1, none⟩ (by decide),
   (gqp_score_range dataEx "q1" gfBig 1 none).2 (PyVal.str "Play Vulfpeck in church") 2 none
     rfl rfl (by norm_num)⟩
